import Mathlib

/-! Shallow embedding of `src/deploy_sample_app/sample_rest_app/app.py`, a FastAPI
user-management service backed by PostgreSQL.  The database is modelled as an
explicit state (`DB`): the rows of the `users` table, the rows of the `app_logs`
table, and the next value of the `users.id` SERIAL sequence.  Failures of the
store are injected through `StoreCond`: either every connection attempt and
query succeeds (`ok`), or `psycopg2.connect` fails so `get_db_connection`
returns `None` (`connFail`), or connections succeed but every executed query
raises `psycopg2.Error` carrying the given driver message (`queryFail`).
A handler returns an `HResult`: the response produced (a normal body, or an
`HTTPException` that FastAPI turns into an error response), the database state
after the request, and the number of connections the handler obtained from
`get_db_connection` and never closed before returning. -/

namespace App

/-- A row of the `users` table (app.py lines 24-28, 87-94): SERIAL id, name,
email, and a server-assigned creation timestamp (modelled as a `Nat`). -/
structure User where
  id : Nat
  name : String
  email : String
  created_at : Nat
deriving Repr, DecidableEq

/-- A row of the `app_logs` table (app.py lines 97-105): the endpoint, method
and status code recorded by `log_request`. -/
structure LogEntry where
  endpoint : String
  method : String
  status_code : Nat
deriving Repr, DecidableEq

/-- The persistent store: `users` rows, `app_logs` rows (append-only, in
insertion order), and the next id the SERIAL sequence will assign. -/
structure DB where
  users : List User
  logs : List LogEntry
  nextId : Nat
deriving Repr, DecidableEq

/-- The `DB_CONFIG` dictionary (app.py lines 59-65). -/
structure DBConfig where
  host : String
  database : String
  user : String
  password : String
  port : String
deriving Repr, DecidableEq

/-- Injected store condition for one request: `ok` - connections and queries
succeed; `connFail` - `get_db_connection` returns `None` (app.py lines 67-74);
`queryFail m` - connections succeed but any executed statement raises
`psycopg2.Error` whose text is `m`. -/
inductive StoreCond where
  | ok : StoreCond
  | connFail : StoreCond
  | queryFail : String → StoreCond
deriving Repr, DecidableEq

/-- A raised `fastapi.HTTPException`: status code and detail string. -/
structure HTTPException where
  status_code : Nat
  detail : String
deriving Repr, DecidableEq

/-- Response body of `GET /users/:id` and `POST /users` (app.py lines 30-31). -/
structure UserResponse where
  user : User
deriving Repr, DecidableEq

/-- Response body of `GET /users` (app.py lines 33-35). -/
structure UsersResponse where
  users : List User
  count : Nat
deriving Repr, DecidableEq

/-- Response body of `DELETE /users/:id` (app.py lines 48-49). -/
structure MessageResponse where
  message : String
deriving Repr, DecidableEq

/-- Response body of `GET /` and `GET /health` (app.py lines 42-46). -/
structure HealthResponse where
  status : String
  message : String
  timestamp : String
  database : String
deriving Repr, DecidableEq

/-- One aggregate row of the `GET /stats` query (app.py lines 346-352):
a (endpoint, method, status_code) group and its request count. -/
structure LogAgg where
  endpoint : String
  method : String
  status_code : Nat
  count : Nat
deriving Repr, DecidableEq

/-- Response body of `GET /stats` (app.py lines 37-40). -/
structure StatsResponse where
  user_count : Nat
  recent_requests : List LogAgg
  database_status : String
deriving Repr, DecidableEq

/-- Response body of `GET /db-test` (app.py lines 51-56); `config` echoes the
five `DB_CONFIG` keys. -/
structure DatabaseTestResponse where
  status : String
  message : String
  postgresql_version : Option String
  current_database : Option String
  config : DBConfig
deriving Repr, DecidableEq

/-- Result of running one handler: the response produced (`Except.error` is a
raised `HTTPException`), the store state afterwards, and the number of
database connections obtained via `get_db_connection` during the request and
never closed before the handler returned (counting connections opened inside
`log_request` as well). -/
structure HResult (α : Type) where
  resp : Except HTTPException α
  db : DB
  leaked : Nat

/-- `log_request` (app.py lines 117-131): best-effort insert of one row into
`app_logs`.  On `connFail` the connection is `None` and nothing happens; on
`queryFail` the insert raises, the `except` clause swallows the error and the
opened connection is never closed; on `ok` one row is appended and the
connection is closed.  Returns the new store and the leaked-connection count. -/
def log_request (cond : StoreCond) (db : DB) (endpoint method : String)
    (status_code : Nat) : DB × Nat :=
  match cond with
  | StoreCond.connFail => (db, 0)
  | StoreCond.queryFail _ => (db, 1)
  | StoreCond.ok =>
      ({ db with logs := db.logs ++ [{ endpoint := endpoint, method := method,
                                       status_code := status_code }] }, 0)

/-- `GET /` (app.py lines 158-167): logs status 200, then probes
`get_db_connection()` for the `database` field without ever closing the
probe connection. -/
def root (cond : StoreCond) (db : DB) (now_iso : String) : HResult HealthResponse :=
  let r := log_request cond db "/" "GET" 200
  let probeLeaked := if cond = StoreCond.connFail then 0 else 1
  { resp := Except.ok
      { status := "healthy", message := "FastAPI app is running", timestamp := now_iso,
        database := if cond = StoreCond.connFail then "disconnected" else "connected" },
    db := r.1, leaked := r.2 + probeLeaked }

/-- `GET /health` (app.py lines 169-178): identical to `root` except for the
logged endpoint. -/
def health_check (cond : StoreCond) (db : DB) (now_iso : String) : HResult HealthResponse :=
  let r := log_request cond db "/health" "GET" 200
  let probeLeaked := if cond = StoreCond.connFail then 0 else 1
  { resp := Except.ok
      { status := "healthy", message := "FastAPI app is running", timestamp := now_iso,
        database := if cond = StoreCond.connFail then "disconnected" else "connected" },
    db := r.1, leaked := r.2 + probeLeaked }

/-- The `ORDER BY created_at DESC` ordering of the `GET /users` query. -/
def byCreatedAtDesc (a b : User) : Prop := b.created_at ≤ a.created_at

instance : DecidableRel byCreatedAtDesc := fun a b => Nat.decLe b.created_at a.created_at

instance : IsTotal User byCreatedAtDesc :=
  ⟨fun a b => (Nat.le_total a.created_at b.created_at).symm⟩

instance : IsTrans User byCreatedAtDesc :=
  ⟨fun _ _ _ h1 h2 => Nat.le_trans h2 h1⟩

/-- `GET /users` (app.py lines 180-211): on success, `SELECT * FROM users ORDER
BY created_at DESC`, closing the connection, logging 200 and answering the rows
plus their count; on connection failure, log 500 and raise; on query error the
`except` clause logs 500 and raises without closing the opened connection. -/
def get_users (cond : StoreCond) (db : DB) : HResult UsersResponse :=
  match cond with
  | StoreCond.connFail =>
      let r := log_request StoreCond.connFail db "/users" "GET" 500
      { resp := Except.error { status_code := 500, detail := "Database connection failed" },
        db := r.1, leaked := r.2 }
  | StoreCond.queryFail m =>
      let r := log_request (StoreCond.queryFail m) db "/users" "GET" 500
      { resp := Except.error { status_code := 500, detail := "Database error" },
        db := r.1, leaked := 1 + r.2 }
  | StoreCond.ok =>
      let sorted := List.insertionSort byCreatedAtDesc db.users
      let r := log_request StoreCond.ok db "/users" "GET" 200
      { resp := Except.ok { users := sorted, count := sorted.length },
        db := r.1, leaked := r.2 }

/-- `POST /users` (app.py lines 213-251): `INSERT ... RETURNING *`.  A duplicate
email makes the insert raise `psycopg2.IntegrityError`, whose `except` clause
logs 409 and raises 409 without closing the connection; any other query error
logs 500 and raises 500, likewise leaking the connection; on success the new
row (id from the SERIAL sequence, server-assigned `created_at`) is committed,
the connection closed and 201 logged. -/
def create_user (cond : StoreCond) (db : DB) (name email : String) (now : Nat) :
    HResult UserResponse :=
  match cond with
  | StoreCond.connFail =>
      let r := log_request StoreCond.connFail db "/users" "POST" 500
      { resp := Except.error { status_code := 500, detail := "Database connection failed" },
        db := r.1, leaked := r.2 }
  | StoreCond.queryFail m =>
      let r := log_request (StoreCond.queryFail m) db "/users" "POST" 500
      { resp := Except.error { status_code := 500, detail := "Database error" },
        db := r.1, leaked := 1 + r.2 }
  | StoreCond.ok =>
      if db.users.any (fun u => u.email == email) then
        let r := log_request StoreCond.ok db "/users" "POST" 409
        { resp := Except.error { status_code := 409, detail := "Email already exists" },
          db := r.1, leaked := 1 + r.2 }
      else
        let u : User := { id := db.nextId, name := name, email := email, created_at := now }
        let db1 : DB := { db with users := db.users ++ [u], nextId := db.nextId + 1 }
        let r := log_request StoreCond.ok db1 "/users" "POST" 201
        { resp := Except.ok { user := u }, db := r.1, leaked := r.2 }

/-- `GET /users/:id` (app.py lines 253-288): `SELECT * FROM users WHERE id = %s`,
connection closed before inspecting the row; found rows answer 200, otherwise
404 is logged and raised.  Query errors log 500 and raise, leaking the
connection. -/
def get_user (cond : StoreCond) (db : DB) (user_id : Int) : HResult UserResponse :=
  let endpoint := "/users/" ++ toString user_id
  match cond with
  | StoreCond.connFail =>
      let r := log_request StoreCond.connFail db endpoint "GET" 500
      { resp := Except.error { status_code := 500, detail := "Database connection failed" },
        db := r.1, leaked := r.2 }
  | StoreCond.queryFail m =>
      let r := log_request (StoreCond.queryFail m) db endpoint "GET" 500
      { resp := Except.error { status_code := 500, detail := "Database error" },
        db := r.1, leaked := 1 + r.2 }
  | StoreCond.ok =>
      match db.users.find? (fun u => (u.id : Int) == user_id) with
      | some u =>
          let r := log_request StoreCond.ok db endpoint "GET" 200
          { resp := Except.ok { user := u }, db := r.1, leaked := r.2 }
      | none =>
          let r := log_request StoreCond.ok db endpoint "GET" 404
          { resp := Except.error { status_code := 404, detail := "User not found" },
            db := r.1, leaked := r.2 }

/-- `DELETE /users/:id` (app.py lines 290-326): `DELETE FROM users WHERE id = %s`;
`cursor.rowcount > 0` decides between committing plus answering 200 and logging
plus raising 404.  Query errors log 500 and raise, leaking the connection. -/
def delete_user (cond : StoreCond) (db : DB) (user_id : Int) : HResult MessageResponse :=
  let endpoint := "/users/" ++ toString user_id
  match cond with
  | StoreCond.connFail =>
      let r := log_request StoreCond.connFail db endpoint "DELETE" 500
      { resp := Except.error { status_code := 500, detail := "Database connection failed" },
        db := r.1, leaked := r.2 }
  | StoreCond.queryFail m =>
      let r := log_request (StoreCond.queryFail m) db endpoint "DELETE" 500
      { resp := Except.error { status_code := 500, detail := "Database error" },
        db := r.1, leaked := 1 + r.2 }
  | StoreCond.ok =>
      let remaining := db.users.filter (fun u => !((u.id : Int) == user_id))
      if remaining.length < db.users.length then
        let db1 : DB := { db with users := remaining }
        let r := log_request StoreCond.ok db1 endpoint "DELETE" 200
        { resp := Except.ok { message := "User deleted successfully" },
          db := r.1, leaked := r.2 }
      else
        let r := log_request StoreCond.ok db endpoint "DELETE" 404
        { resp := Except.error { status_code := 404, detail := "User not found" },
          db := r.1, leaked := r.2 }

/-- Key equality for the `GROUP BY endpoint, method, status_code` of the stats
query. -/
def sameKey (a : LogAgg) (e : LogEntry) : Bool :=
  a.endpoint == e.endpoint && a.method == e.method && a.status_code == e.status_code

/-- Add one log entry to the running group-by accumulator. -/
def bumpKey (e : LogEntry) : List LogAgg → List LogAgg
  | [] => [{ endpoint := e.endpoint, method := e.method,
             status_code := e.status_code, count := 1 }]
  | a :: rest =>
      if sameKey a e then { a with count := a.count + 1 } :: rest
      else a :: bumpKey e rest

/-- The `GROUP BY (endpoint, method, status_code)` aggregation of `app_logs`
rows (app.py lines 346-352). -/
def groupLogs (entries : List LogEntry) : List LogAgg :=
  entries.foldl (fun acc e => bumpKey e acc) []

/-- The `ORDER BY count DESC` ordering of the stats aggregates. -/
def byCountDesc (a b : LogAgg) : Prop := b.count ≤ a.count

instance : DecidableRel byCountDesc := fun a b => Nat.decLe b.count a.count

instance : IsTotal LogAgg byCountDesc :=
  ⟨fun a b => (Nat.le_total a.count b.count).symm⟩

instance : IsTrans LogAgg byCountDesc :=
  ⟨fun _ _ _ h1 h2 => Nat.le_trans h2 h1⟩

/-- `GET /stats` (app.py lines 328-371): counts users and aggregates `app_logs`
rows grouped by (endpoint, method, status_code) ordered by descending count.
The rolling 1-hour wall-clock window of the SQL query is represented by
aggregating every recorded row (entry timestamps are not part of the model).
On connection failure the handler raises 500 WITHOUT calling `log_request`
first; on query error it logs 500 and raises, leaking the connection. -/
def get_stats (cond : StoreCond) (db : DB) : HResult StatsResponse :=
  match cond with
  | StoreCond.connFail =>
      { resp := Except.error { status_code := 500, detail := "Database connection failed" },
        db := db, leaked := 0 }
  | StoreCond.queryFail m =>
      let r := log_request (StoreCond.queryFail m) db "/stats" "GET" 500
      { resp := Except.error { status_code := 500, detail := "Database error" },
        db := r.1, leaked := 1 + r.2 }
  | StoreCond.ok =>
      let recent := List.insertionSort byCountDesc (groupLogs db.logs)
      let r := log_request StoreCond.ok db "/stats" "GET" 200
      { resp := Except.ok { user_count := db.users.length, recent_requests := recent,
                            database_status := "connected" },
        db := r.1, leaked := r.2 }

/-- The password-masking dictionary comprehension of `GET /db-test`
(app.py lines 382, 400, 408). -/
def redactConfig (cfg : DBConfig) : DBConfig := { cfg with password := "***" }

/-- `GET /db-test` (app.py lines 373-409): never calls `log_request` and never
raises; it answers a diagnostic body with an always-masked config.  `version`
and `dbname` are the values the store would answer for `SELECT version()` and
`SELECT current_database()`.  On query error the `except` clause embeds the
driver exception text in the `message` field and leaks the open connection. -/
def test_database (cond : StoreCond) (db : DB) (cfg : DBConfig)
    (version dbname : String) : HResult DatabaseTestResponse :=
  match cond with
  | StoreCond.connFail =>
      { resp := Except.ok
          { status := "error", message := "Cannot connect to database",
            postgresql_version := none, current_database := none,
            config := redactConfig cfg },
        db := db, leaked := 0 }
  | StoreCond.queryFail m =>
      { resp := Except.ok
          { status := "error", message := "Database error: " ++ m,
            postgresql_version := none, current_database := none,
            config := redactConfig cfg },
        db := db, leaked := 1 }
  | StoreCond.ok =>
      { resp := Except.ok
          { status := "success", message := "Database connection successful",
            postgresql_version := some version, current_database := some dbname,
            config := redactConfig cfg },
        db := db, leaked := 0 }

/-- Modelled from the spec: well-formedness of an email address as checked by
the pydantic `EmailStr` field of `UserCreate` (app.py lines 20-22).  The
validation itself runs inside FastAPI/pydantic, outside this repository; the
spec only requires that a malformed email is rejected with 422.  The concrete
check used here: exactly one at sign, a nonempty local part, and a nonempty
domain containing a dot. -/
def isValidEmail (s : String) : Bool :=
  let cs := s.toList
  let lp := cs.takeWhile (fun c => c != '@')
  let rest := cs.drop (lp.length + 1)
  cs.count '@' == 1 && !lp.isEmpty && !rest.isEmpty && rest.contains '.'

/-- Modelled from the spec: the full `POST /users` route as dispatched by
FastAPI - request-body validation against `UserCreate` happens before the
handler body runs, and a malformed email is answered with 422 while no
connection is opened, no row inserted and nothing logged. -/
def post_users (cond : StoreCond) (db : DB) (name email : String) (now : Nat) :
    HResult UserResponse :=
  if isValidEmail email then create_user cond db name email now
  else
    { resp := Except.error
        { status_code := 422, detail := "value is not a valid email address" },
      db := db, leaked := 0 }

/-- The status code of the HTTP response FastAPI sends for a handler outcome,
given the route's declared success status (201 for `POST /users`, 200
otherwise). -/
def respStatus {α : Type} (r : Except HTTPException α) (okStatus : Nat) : Nat :=
  match r with
  | Except.ok _ => okStatus
  | Except.error e => e.status_code

/-- SERIAL-sequence invariant of the store: every existing row's id is below
the next value the sequence will assign. -/
def DB.wf (db : DB) : Prop := ∀ u ∈ db.users, u.id < db.nextId

/-- An empty store whose SERIAL sequence will assign id 1 next. -/
def dbEmpty : DB := { users := [], logs := [], nextId := 1 }

/-- A sample stored user. -/
def userAnn : User := { id := 1, name := "Ann", email := "ann@x.com", created_at := 0 }

/-- A store holding exactly `userAnn`. -/
def dbOne : DB := { users := [userAnn], logs := [], nextId := 2 }

/-- The default `DB_CONFIG` values of app.py lines 59-65. -/
def cfgSample : DBConfig :=
  { host := "localhost", database := "appdb", user := "dbuser",
    password := "password", port := "5432" }

/-- C1: creating a user with a fresh email on a healthy store and then fetching
the returned id yields a user carrying exactly the supplied name and email
(create/get round-trip). -/
theorem C1_create_get_roundtrip (db : DB) (name email : String) (now : Nat)
    (hwf : db.wf) (hfresh : db.users.any (fun u => u.email == email) = false) :
    ∃ u : User,
      (create_user StoreCond.ok db name email now).resp = Except.ok { user := u } ∧
      u.name = name ∧ u.email = email ∧
      (get_user StoreCond.ok (create_user StoreCond.ok db name email now).db
          (u.id : Int)).resp = Except.ok { user := u } := by
  refine ⟨{ id := db.nextId, name := name, email := email, created_at := now },
    ?_, rfl, rfl, ?_⟩
  · simp [create_user, log_request, hfresh]
  · have hnone : db.users.find? (fun u => (u.id : Int) == (db.nextId : Int)) = none := by
      rw [List.find?_eq_none]
      intro x hx
      have hlt := hwf x hx
      simp only [beq_iff_eq, Int.natCast_inj]
      omega
    simp [create_user, get_user, log_request, hfresh, List.find?_append, hnone]

/-- Witness for C1 at the empty store. -/
theorem C1_create_get_roundtrip_witness :
    ∃ u : User,
      (create_user StoreCond.ok dbEmpty "Ann" "ann@x.com" 0).resp = Except.ok { user := u } ∧
      u.name = "Ann" ∧ u.email = "ann@x.com" ∧
      (get_user StoreCond.ok (create_user StoreCond.ok dbEmpty "Ann" "ann@x.com" 0).db
          (u.id : Int)).resp = Except.ok { user := u } :=
  C1_create_get_roundtrip dbEmpty "Ann" "ann@x.com" 0
    (by intro u hu; simp [dbEmpty] at hu) (by rfl)

/-- C2: creating a user whose email is already stored answers 409 Conflict and
leaves the stored user set unchanged. -/
theorem C2_duplicate_email_conflict (db : DB) (name email : String) (now : Nat)
    (hdup : db.users.any (fun u => u.email == email) = true) :
    (create_user StoreCond.ok db name email now).resp
      = Except.error { status_code := 409, detail := "Email already exists" } ∧
    (create_user StoreCond.ok db name email now).db.users = db.users := by
  simp [create_user, log_request, hdup]

/-- Witness for C2 at a store already holding `ann@x.com`. -/
theorem C2_duplicate_email_conflict_witness :
    (create_user StoreCond.ok dbOne "Bob" "ann@x.com" 5).resp
      = Except.error { status_code := 409, detail := "Email already exists" } ∧
    (create_user StoreCond.ok dbOne "Bob" "ann@x.com" 5).db.users = dbOne.users :=
  C2_duplicate_email_conflict dbOne "Bob" "ann@x.com" 5 (by rfl)

/-- C3: on a healthy store, fetching or deleting an id that matches no stored
user answers 404 (so neither 200 nor 500), and the failed delete leaves the
stored user set unchanged. -/
theorem C3_missing_id_404 (db : DB) (uid : Int)
    (habs : ∀ u ∈ db.users, (u.id : Int) ≠ uid) :
    (get_user StoreCond.ok db uid).resp
      = Except.error { status_code := 404, detail := "User not found" } ∧
    (delete_user StoreCond.ok db uid).resp
      = Except.error { status_code := 404, detail := "User not found" } ∧
    (delete_user StoreCond.ok db uid).db.users = db.users := by
  have hnone : db.users.find? (fun u => (u.id : Int) == uid) = none := by
    rw [List.find?_eq_none]
    intro x hx
    simpa using habs x hx
  have hfilter : db.users.filter (fun u => !((u.id : Int) == uid)) = db.users := by
    rw [List.filter_eq_self]
    intro a ha
    simpa using habs a ha
  refine ⟨?_, ?_, ?_⟩ <;> simp [get_user, delete_user, log_request, hnone, hfilter]

/-- Witness for C3 at a one-user store and the absent id 5. -/
theorem C3_missing_id_404_witness :
    (get_user StoreCond.ok dbOne 5).resp
      = Except.error { status_code := 404, detail := "User not found" } ∧
    (delete_user StoreCond.ok dbOne 5).resp
      = Except.error { status_code := 404, detail := "User not found" } ∧
    (delete_user StoreCond.ok dbOne 5).db.users = dbOne.users :=
  C3_missing_id_404 dbOne 5 (by decide)

/-- C4: on a healthy store, `GET /users` answers the stored users as a sequence
sorted by descending `created_at` (a permutation of the stored rows), and the
`count` field equals the length of the returned sequence. -/
theorem C4_list_users_sorted_counted (db : DB) :
    ∃ us : List User,
      (get_users StoreCond.ok db).resp = Except.ok { users := us, count := us.length } ∧
      us.Perm db.users ∧
      List.Sorted byCreatedAtDesc us :=
  ⟨List.insertionSort byCreatedAtDesc db.users, rfl,
    List.perm_insertionSort byCreatedAtDesc db.users,
    List.sorted_insertionSort byCreatedAtDesc db.users⟩

/-- C5 counterexample: handling one `GET /db-test` request on a healthy store
appends NO `app_logs` row at all (the handler never calls `log_request`), so
not every HTTP-facing operation appends exactly one audit-log entry. -/
theorem C5_db_test_never_logs_counterexample :
    (test_database StoreCond.ok dbEmpty cfgSample "PostgreSQL 16.0" "appdb").db.logs.length
      ≠ dbEmpty.logs.length + 1 := by
  simp [test_database, dbEmpty]

/-- C5 amended: on a healthy store, each of `/`, `/health`, `GET /users`,
`POST /users`, `GET /users/:id`, `DELETE /users/:id` and `GET /stats` appends
exactly one `app_logs` row recording its endpoint, method and the status code
of the response actually produced; but `GET /db-test` never appends an entry
under any store condition, and `GET /stats` appends none on the
connection-failure path (it raises without calling `log_request`). -/
theorem C5_amended_one_log_entry :
    (∀ db t, (root StoreCond.ok db t).db.logs
        = db.logs ++ [{ endpoint := "/", method := "GET", status_code := 200 }]) ∧
    (∀ db t, (health_check StoreCond.ok db t).db.logs
        = db.logs ++ [{ endpoint := "/health", method := "GET", status_code := 200 }]) ∧
    (∀ db, (get_users StoreCond.ok db).db.logs
        = db.logs ++ [{ endpoint := "/users", method := "GET", status_code := 200 }]) ∧
    (∀ db n e now, (create_user StoreCond.ok db n e now).db.logs
        = db.logs ++
          [{ endpoint := "/users", method := "POST",
             status_code := respStatus (create_user StoreCond.ok db n e now).resp 201 }]) ∧
    (∀ db uid, (get_user StoreCond.ok db uid).db.logs
        = db.logs ++
          [{ endpoint := "/users/" ++ toString uid, method := "GET",
             status_code := respStatus (get_user StoreCond.ok db uid).resp 200 }]) ∧
    (∀ db uid, (delete_user StoreCond.ok db uid).db.logs
        = db.logs ++
          [{ endpoint := "/users/" ++ toString uid, method := "DELETE",
             status_code := respStatus (delete_user StoreCond.ok db uid).resp 200 }]) ∧
    (∀ db, (get_stats StoreCond.ok db).db.logs
        = db.logs ++ [{ endpoint := "/stats", method := "GET", status_code := 200 }]) ∧
    (∀ db, (get_stats StoreCond.connFail db).db.logs = db.logs) ∧
    (∀ cond db cfg v d, (test_database cond db cfg v d).db.logs = db.logs) := by
  refine ⟨fun _ _ => rfl, fun _ _ => rfl, fun _ => rfl, ?_, ?_, ?_, fun _ => rfl,
    fun _ => rfl, ?_⟩
  · intro db n e now
    by_cases h : db.users.any (fun u => u.email == e) <;>
      simp [create_user, log_request, respStatus, h]
  · intro db uid
    cases hf : db.users.find? (fun u => (u.id : Int) == uid) <;>
      simp [get_user, log_request, respStatus, hf]
  · intro db uid
    by_cases h : (db.users.filter (fun u => !((u.id : Int) == uid))).length
        < db.users.length <;>
      simp [delete_user, log_request, respStatus, h]
  · intro cond db cfg v d
    cases cond <;> rfl

/-- C6: `/health` always answers a normal 200 body whose `database` field is
"disconnected" exactly when the store is unreachable, and `/db-test` always
answers a normal body - status "error" with a degraded diagnostic on a
connection failure or query error, status "success" otherwise; neither handler
ever raises. -/
theorem C6_health_dbtest_never_fault :
    (∀ cond db t, (health_check cond db t).resp
        = Except.ok
            { status := "healthy", message := "FastAPI app is running",
              timestamp := t,
              database := if cond = StoreCond.connFail then "disconnected" else "connected" }) ∧
    (∀ db cfg v d, (test_database StoreCond.connFail db cfg v d).resp
        = Except.ok
            { status := "error", message := "Cannot connect to database",
              postgresql_version := none, current_database := none,
              config := redactConfig cfg }) ∧
    (∀ m db cfg v d, (test_database (StoreCond.queryFail m) db cfg v d).resp
        = Except.ok
            { status := "error", message := "Database error: " ++ m,
              postgresql_version := none, current_database := none,
              config := redactConfig cfg }) ∧
    (∀ db cfg v d, (test_database StoreCond.ok db cfg v d).resp
        = Except.ok
            { status := "success", message := "Database connection successful",
              postgresql_version := some v, current_database := some d,
              config := redactConfig cfg }) := by
  refine ⟨?_, fun _ _ _ _ => rfl, fun _ _ _ _ _ => rfl, fun _ _ _ _ => rfl⟩
  intro cond db t
  cases cond <;> rfl

/-- C7: under every store condition the `/db-test` response exists, its echoed
`config.password` is the literal "***", and the whole handler result is
unchanged when only the configured password differs - the real credential
never influences the response. -/
theorem C7_password_never_leaks :
    (∀ cond db cfg v d, ∃ r : DatabaseTestResponse,
        (test_database cond db cfg v d).resp = Except.ok r ∧
        r.config.password = "***") ∧
    (∀ cond db cfg p v d,
        test_database cond db { cfg with password := p } v d
          = test_database cond db cfg v d) := by
  constructor
  · intro cond db cfg v d
    cases cond <;> exact ⟨_, rfl, rfl⟩
  · intro cond db cfg p v d
    cases cond <;> rfl

/-- C8 counterexample: two `/db-test` runs that differ only in the internal
driver exception text produce different client-visible bodies - the `message`
field embeds the raw exception string, so internal error text IS exposed. -/
theorem C8_driver_text_exposed_counterexample :
    (test_database (StoreCond.queryFail "connection reset by peer") dbEmpty cfgSample
        "v" "d").resp
      ≠ (test_database (StoreCond.queryFail "server closed the connection") dbEmpty
        cfgSample "v" "d").resp := by
  simp [test_database]

/-- C8 amended: every `HTTPException` error response raised by the root,
health, users and stats handlers carries a fixed detail string and is wholly
independent of the internal driver exception text; `GET /db-test` alone
embeds the driver exception message in the `message` field of its error
diagnostic. -/
theorem C8_amended_fixed_error_details :
    (∀ m1 m2 db, get_users (StoreCond.queryFail m1) db
        = get_users (StoreCond.queryFail m2) db) ∧
    (∀ m1 m2 db n e now, create_user (StoreCond.queryFail m1) db n e now
        = create_user (StoreCond.queryFail m2) db n e now) ∧
    (∀ m1 m2 db uid, get_user (StoreCond.queryFail m1) db uid
        = get_user (StoreCond.queryFail m2) db uid) ∧
    (∀ m1 m2 db uid, delete_user (StoreCond.queryFail m1) db uid
        = delete_user (StoreCond.queryFail m2) db uid) ∧
    (∀ m1 m2 db, get_stats (StoreCond.queryFail m1) db
        = get_stats (StoreCond.queryFail m2) db) ∧
    (∀ m1 m2 db t, root (StoreCond.queryFail m1) db t
        = root (StoreCond.queryFail m2) db t) ∧
    (∀ m1 m2 db t, health_check (StoreCond.queryFail m1) db t
        = health_check (StoreCond.queryFail m2) db t) ∧
    (∀ m db cfg v d, (test_database (StoreCond.queryFail m) db cfg v d).resp
        = Except.ok
            { status := "error", message := "Database error: " ++ m,
              postgresql_version := none, current_database := none,
              config := redactConfig cfg }) :=
  ⟨fun _ _ _ => rfl, fun _ _ _ _ _ _ => rfl, fun _ _ _ _ => rfl, fun _ _ _ _ => rfl,
   fun _ _ _ => rfl, fun _ _ _ _ => rfl, fun _ _ _ _ => rfl, fun _ _ _ _ _ => rfl⟩

/-- C9 counterexample: `GET /health` on a healthy store returns with one
database connection still open - the connectivity probe
`get_db_connection()` on app.py line 177 is never closed. -/
theorem C9_health_probe_leak_counterexample :
    (health_check StoreCond.ok dbEmpty "2024-01-01T00:00:00").leaked ≠ 0 := by
  simp [health_check, log_request, dbEmpty]

/-- C9 amended: the users and stats handlers close every opened connection on
their success, not-found and connection-failure paths; but on driver-error
paths the handler's connection stays open - and each such path leaks two
connections, its own plus the one `log_request` opens and abandons - the
duplicate-email conflict path of `POST /users` leaks its connection, `/` and
`/health` never close their connectivity probe, and `/db-test` leaks its
connection on a query error. -/
theorem C9_amended_connection_release :
    (∀ db, (get_users StoreCond.ok db).leaked = 0) ∧
    (∀ db, (get_users StoreCond.connFail db).leaked = 0) ∧
    (∀ db n e now, (create_user StoreCond.ok db n e now).leaked
        = if db.users.any (fun u => u.email == e) then 1 else 0) ∧
    (∀ db n e now, (create_user StoreCond.connFail db n e now).leaked = 0) ∧
    (∀ db uid, (get_user StoreCond.ok db uid).leaked = 0) ∧
    (∀ db uid, (get_user StoreCond.connFail db uid).leaked = 0) ∧
    (∀ db uid, (delete_user StoreCond.ok db uid).leaked = 0) ∧
    (∀ db uid, (delete_user StoreCond.connFail db uid).leaked = 0) ∧
    (∀ db, (get_stats StoreCond.ok db).leaked = 0) ∧
    (∀ db, (get_stats StoreCond.connFail db).leaked = 0) ∧
    (∀ m db, (get_users (StoreCond.queryFail m) db).leaked = 2) ∧
    (∀ m db n e now, (create_user (StoreCond.queryFail m) db n e now).leaked = 2) ∧
    (∀ m db uid, (get_user (StoreCond.queryFail m) db uid).leaked = 2) ∧
    (∀ m db uid, (delete_user (StoreCond.queryFail m) db uid).leaked = 2) ∧
    (∀ m db, (get_stats (StoreCond.queryFail m) db).leaked = 2) ∧
    (∀ db t, (root StoreCond.ok db t).leaked = 1) ∧
    (∀ db t, (health_check StoreCond.ok db t).leaked = 1) ∧
    (∀ m db cfg v d, (test_database (StoreCond.queryFail m) db cfg v d).leaked = 1) := by
  refine ⟨fun _ => rfl, fun _ => rfl, ?_, fun _ _ _ _ => rfl, ?_, fun _ _ => rfl,
    ?_, fun _ _ => rfl, fun _ => rfl, fun _ => rfl, fun _ _ => rfl,
    fun _ _ _ _ _ => rfl, fun _ _ _ => rfl, fun _ _ _ => rfl, fun _ _ => rfl,
    fun _ _ => rfl, fun _ _ => rfl, fun _ _ _ _ _ => rfl⟩
  · intro db n e now
    by_cases h : db.users.any (fun u => u.email == e) <;>
      simp [create_user, log_request, h]
  · intro db uid
    cases hf : db.users.find? (fun u => (u.id : Int) == uid) <;>
      simp [get_user, log_request, hf]
  · intro db uid
    by_cases h : (db.users.filter (fun u => !((u.id : Int) == uid))).length
        < db.users.length <;>
      simp [delete_user, log_request, h]

/-- C10: a `POST /users` request whose email is malformed is rejected with 422
by request validation before the handler body runs: the store is untouched
(users and logs unchanged) and no connection is opened. -/
theorem C10_invalid_email_422 (cond : StoreCond) (db : DB) (name email : String)
    (now : Nat) (hbad : isValidEmail email = false) :
    post_users cond db name email now
      = { resp := Except.error
            { status_code := 422, detail := "value is not a valid email address" },
          db := db, leaked := 0 } := by
  simp [post_users, hbad]

/-- Witness for C10 at a concrete malformed email. -/
theorem C10_invalid_email_422_witness :
    post_users StoreCond.ok dbEmpty "Ann" "not-an-email" 0
      = { resp := Except.error
            { status_code := 422, detail := "value is not a valid email address" },
          db := dbEmpty, leaked := 0 } :=
  C10_invalid_email_422 StoreCond.ok dbEmpty "Ann" "not-an-email" 0 (by decide)

end App
